import Mathlib

/-!
Verification development for a small retrieval (RAG) service.

The repository consists of a generator script `create_rag.py`, whose string
literal `rag_code` is the FastAPI server it writes to `src/api/server.py`,
and a committed duplicate server `src/src/api/server.py` exposing only
`GET /` and `GET /health`.

We shallowly embed the generated server's handlers as pure Lean functions.
External collaborators (the OpenAI embedding provider and the Qdrant vector
store) are consumed only through their interfaces, so they are modelled as
function parameters; each handler additionally returns the trace of
collaborator calls it performed, so that "no upsert call occurs" and similar
properties are directly statable.  Python `str` values are Lean `String`s
(sequences of code points), Python float values are modelled as `Rat` (the
service never computes with them, it only passes them through), and a raised
`HTTPException` is the `Except.error` branch.
-/

/-- Python string slicing `s[:n]`: the first `n` code points of `s`
(the whole string when it is shorter than `n`). -/
def pySlice (s : String) (n : Nat) : String := ⟨s.data.take n⟩

/-- `fastapi.HTTPException(status_code=..., detail=...)`. -/
structure HTTPException where
  status_code : Nat
  detail : String
deriving DecidableEq, Repr

/-- `COLLECTION_NAME = "ai_docs_2026"` (create_rag.py line 14). -/
def COLLECTION_NAME : String := "ai_docs_2026"

/-- `qdrant_client.models.Distance` (the metrics Qdrant offers). -/
inductive Distance where
  | COSINE
  | EUCLID
  | DOT
deriving DecidableEq, Repr

/-- `qdrant_client.models.VectorParams(size=..., distance=...)`. -/
structure VectorParams where
  size : Nat
  distance : Distance
deriving DecidableEq, Repr

/-- A collection registered in the Qdrant store: its name together with the
vector configuration it was created with. -/
structure CollectionInfo where
  name : String
  params : VectorParams
deriving DecidableEq, Repr

/-- The state of the external Qdrant store visible to `startup_event`:
the list of existing collections. -/
structure QdrantState where
  collections : List CollectionInfo
deriving DecidableEq, Repr

/-- `qdrant_client.models.PointStruct(id=..., vector=..., payload={"text": ...})`.
Every payload this service writes is `{"text": text}`, so the payload is
modelled by its text field. -/
structure PointStruct where
  id : String
  vector : List Rat
  payload_text : String
deriving DecidableEq, Repr

/-- A hit returned by `client.search`: id, score and payload.  The handlers
read `hit.payload["text"]`, so the payload is modelled by that text field. -/
structure Hit where
  id : String
  score : Rat
  payload_text : String
deriving DecidableEq, Repr

/-- One call from the service to an external collaborator. -/
inductive Call where
  /-- `openai.Embedding.acreate(model=..., input=text)` -/
  | embedCall (text : String)
  /-- `client.upsert(collection_name=..., points=...)` -/
  | upsertCall (collection : String) (points : List PointStruct)
  /-- `client.search(collection_name=..., query_vector=..., limit=...)` -/
  | searchCall (collection : String) (query_vector : List Rat) (limit : Int)
deriving DecidableEq, Repr

/-- The external embedding provider: either the embedding vector, or a
failure whose string is the provider-internal exception text. -/
def Provider : Type := String → Except String (List Rat)

/-- The external store's similarity search, `client.search`:
collection name, query vector and limit, returning the hits. -/
def StoreSearch : Type := String → List Rat → Int → List Hit

/-- `client.create_collection(collection_name, vectors_config)`
(create_rag.py lines 21–24): registers a new collection in the store. -/
def create_collection (st : QdrantState) (name : String) (cfg : VectorParams) :
    QdrantState :=
  ⟨st.collections ++ [⟨name, cfg⟩]⟩

/-- `startup_event` (create_rag.py lines 16–29): queries the existing
collections and creates `COLLECTION_NAME` with `size=1536, distance=COSINE`
only when no collection of that name exists.  Returns the new store state and
the message printed.  The surrounding `try/except` swallows every exception,
so no error escapes this function. -/
def startup_event (st : QdrantState) : QdrantState × String :=
  if COLLECTION_NAME ∈ st.collections.map CollectionInfo.name then
    (st, "Collection exists")
  else
    (create_collection st COLLECTION_NAME ⟨1536, Distance.COSINE⟩,
     "Created collection")

/-- `get_embedding` (create_rag.py lines 31–39): calls the provider; on any
provider exception raises `HTTPException(500, "Embedding failed")` — the
f-string contains no interpolation, so the detail is this constant. -/
def get_embedding (provider : Provider) (text : String) :
    Except HTTPException (List Rat) :=
  match provider text with
  | .ok v => .ok v
  | .error _ => .error ⟨500, "Embedding failed"⟩

/-- Response body of `GET /` of the generated server (create_rag.py
lines 41–43). -/
def root : List (String × String) :=
  [("system", "AI Core 2026 RAG"), ("status", "ready")]

/-- Response body of `GET /health` of the generated server (create_rag.py
lines 45–47). -/
def health : List (String × String) :=
  [("status", "healthy"), ("services", "ok")]

/-- Response body of `POST /add_document`. -/
structure AddDocumentResponse where
  status : String
  id : String
deriving DecidableEq, Repr

/-- One entry of the `results` field of the `GET /search` response. -/
structure SearchResultItem where
  id : String
  score : Rat
  text : String
deriving DecidableEq, Repr

/-- Response body of `GET /search`. -/
structure SearchResponse where
  query : String
  results : List SearchResultItem
deriving DecidableEq, Repr

/-- Response body of `GET /embed`. -/
structure EmbedResponse where
  text : String
  dimensions : Nat
  sample : List Rat
deriving DecidableEq, Repr

/-- `add_document` (create_rag.py lines 49–61).  `uuid4` is the value
`str(uuid.uuid4())` produced by the handler at insert time; it is an
injected parameter because UUID generation is nondeterministic — the HTTP
caller supplies only `text`.  Returns the collaborator-call trace and the
HTTP outcome.  Python's `if not text` is true exactly on the empty string. -/
def add_document (provider : Provider) (uuid4 : String) (text : String) :
    List Call × Except HTTPException AddDocumentResponse :=
  if text = "" then
    ([], .error ⟨400, "Text required"⟩)
  else
    match get_embedding provider text with
    | .error e => ([.embedCall text], .error e)
    | .ok embedding =>
      let doc_id := uuid4
      let point : PointStruct := ⟨doc_id, embedding, text⟩
      ([.embedCall text, .upsertCall COLLECTION_NAME [point]],
       .ok ⟨"added", doc_id⟩)

/-- `search` (create_rag.py lines 63–79).  The Python default for `limit`
is 3; Lean callers pass it explicitly.  Each hit is shaped into
`{"id": hit.id, "score": hit.score, "text": hit.payload["text"][:100]}`. -/
def search (provider : Provider) (store : StoreSearch)
    (query : String) (limit : Int) :
    List Call × Except HTTPException SearchResponse :=
  if query = "" then
    ([], .error ⟨400, "Query required"⟩)
  else
    match get_embedding provider query with
    | .error e => ([.embedCall query], .error e)
    | .ok query_embedding =>
      let results := store COLLECTION_NAME query_embedding limit
      ([.embedCall query, .searchCall COLLECTION_NAME query_embedding limit],
       .ok ⟨query,
            results.map fun hit =>
              ⟨hit.id, hit.score, pySlice hit.payload_text 100⟩⟩)

/-- `embed` (create_rag.py lines 81–88).  The Python default for `text` is
`"Hello"`; Lean callers pass it explicitly.  No validation is performed on
`text` before the embedding call. -/
def embed (provider : Provider) (text : String) :
    List Call × Except HTTPException EmbedResponse :=
  match get_embedding provider text with
  | .error e => ([.embedCall text], .error e)
  | .ok embedding =>
    ([.embedCall text], .ok ⟨text, embedding.length, embedding.take 3⟩)

namespace DuplicateServer

/-- The routes the committed duplicate server `src/src/api/server.py`
registers: only `GET /` and `GET /health`. -/
def routes : List (String × String) :=
  [("GET", "/"), ("GET", "/health")]

/-- Response body of the duplicate server's `GET /` (server.py lines 8–10). -/
def root : List (String × String) :=
  [("system", "AI Core 2026"), ("status", "production")]

/-- Response body of the duplicate server's `GET /health`
(server.py lines 12–14). -/
def health : List (String × String) :=
  [("status", "healthy")]

end DuplicateServer

/-- The routes the generated server registers. -/
def generatedRoutes : List (String × String) :=
  [("GET", "/"), ("GET", "/health"), ("POST", "/add_document"),
   ("GET", "/search"), ("GET", "/embed")]

/-- Helper: Python slicing `s[:100]` returns the whole string when it is
shorter than the bound. -/
theorem pySlice_of_length_le (s : String) (n : Nat) (h : s.length ≤ n) :
    pySlice s n = s := by
  unfold pySlice
  rw [List.take_of_length_le h]

/-- C1: `add_document("")` and `search("")` each fail with a 400 validation
error and an empty collaborator-call trace: no upsert call, no embedding
call and no store call occurs, whatever the collaborators, the generated
UUID and the limit are. -/
theorem empty_input_validation (provider : Provider) (store : StoreSearch)
    (uuid4 : String) (limit : Int) :
    add_document provider uuid4 "" =
      ([], .error ⟨400, "Text required"⟩) ∧
    search provider store "" limit =
      ([], .error ⟨400, "Query required"⟩) := by
  constructor <;> rfl

/-- C5: on non-empty text with a successful embedding, `add_document` upserts
exactly one point whose id is the UUID freshly generated by the handler
(`uuid4` is produced by `str(uuid.uuid4())` inside the handler — the HTTP
caller supplies only `text`), whose vector is the embedding and whose payload
is `{"text": text}`, and returns `{status: "added", id}` with the same id as
the upserted point. -/
theorem add_document_fresh_uuid (provider : Provider) (uuid4 text : String)
    (v : List Rat) (ht : text ≠ "") (hp : provider text = .ok v) :
    add_document provider uuid4 text =
      ([.embedCall text,
        .upsertCall COLLECTION_NAME [⟨uuid4, v, text⟩]],
       .ok ⟨"added", uuid4⟩) := by
  simp [add_document, get_embedding, hp, if_neg ht]

/-- Witness for C5 at a concrete uuid, text and provider. -/
theorem add_document_fresh_uuid_witness :
    add_document (fun _ => .ok [1, 2]) "u-42" "hello docs" =
      ([.embedCall "hello docs",
        .upsertCall COLLECTION_NAME [⟨"u-42", [1, 2], "hello docs"⟩]],
       .ok ⟨"added", "u-42"⟩) :=
  add_document_fresh_uuid _ "u-42" "hello docs" [1, 2] (by decide) rfl

/-- C6: the startup bootstrap is idempotent.  Running `startup_event` twice
leaves the same store state as running it once, the second run reports
"Collection exists" (it takes the exists branch, so no create call and hence
no "already exists" failure can occur), and after one run the number of
collections named `COLLECTION_NAME` is `max (previous count) 1`: the
collection is created only if absent, and never duplicated. -/
theorem startup_event_idempotent (st : QdrantState) :
    (startup_event (startup_event st).1).1 = (startup_event st).1 ∧
    (startup_event (startup_event st).1).2 = "Collection exists" ∧
    (startup_event st).1.collections.countP
        (fun c => c.name == COLLECTION_NAME) =
      max (st.collections.countP (fun c => c.name == COLLECTION_NAME)) 1 := by
  by_cases h : COLLECTION_NAME ∈ st.collections.map CollectionInfo.name
  · have hpos : 0 < st.collections.countP (fun c => c.name == COLLECTION_NAME) := by
      rw [List.countP_pos_iff]
      obtain ⟨c, hc, hname⟩ := List.mem_map.mp h
      exact ⟨c, hc, by simp [hname]⟩
    refine ⟨?_, ?_, ?_⟩
    · simp [startup_event, h]
    · simp [startup_event, h]
    · simp only [startup_event, if_pos h]
      exact (Nat.max_eq_left hpos).symm
  · have hzero : st.collections.countP (fun c => c.name == COLLECTION_NAME) = 0 := by
      rw [List.countP_eq_zero]
      intro c hc
      simp only [beq_iff_eq]
      intro hname
      exact h (List.mem_map.mpr ⟨c, hc, hname⟩)
    refine ⟨?_, ?_, ?_⟩
    · simp [startup_event, create_collection, h]
    · simp [startup_event, create_collection, h]
    · simp [startup_event, create_collection, h, List.countP_append, hzero]

/-- Counterexample to C7: a collection named `COLLECTION_NAME` already exists
with dimension 768 and Euclidean metric — different from the requested
1536/cosine — yet `startup_event` proceeds silently: the store is unchanged
and the outcome is exactly the "Collection exists" outcome of the
matching-parameters case; no `SchemaMismatchError` (indeed no error of any
kind) is raised. -/
theorem startup_event_no_schema_check :
    startup_event ⟨[⟨COLLECTION_NAME, ⟨768, Distance.EUCLID⟩⟩]⟩ =
      (⟨[⟨COLLECTION_NAME, ⟨768, Distance.EUCLID⟩⟩]⟩, "Collection exists") := by
  rfl

/-- C7 (amended): `startup_event` compares only collection names.  Whenever a
collection named `COLLECTION_NAME` exists — regardless of its dimension or
metric — the event leaves the store unchanged and reports
"Collection exists", raising no error. -/
theorem startup_event_ignores_schema (st : QdrantState)
    (h : COLLECTION_NAME ∈ st.collections.map CollectionInfo.name) :
    startup_event st = (st, "Collection exists") := by
  simp [startup_event, h]

/-- Witness for the amended C7 at the mismatched-schema store. -/
theorem startup_event_ignores_schema_witness :
    startup_event ⟨[⟨COLLECTION_NAME, ⟨768, Distance.DOT⟩⟩]⟩ =
      (⟨[⟨COLLECTION_NAME, ⟨768, Distance.DOT⟩⟩]⟩, "Collection exists") :=
  startup_event_ignores_schema _ (by decide)

/-- C8: whenever the embedding provider fails — whatever the text of the
provider-internal exception `msg` — `get_embedding` raises
`HTTPException(500, "Embedding failed")`, and every handler that reaches
the embedding call responds with status 500 and that same constant detail.
The response does not depend on `msg`, so no provider detail leaks. -/
theorem embedding_failure_genericized (provider : Provider)
    (store : StoreSearch) (uuid4 text msg : String) (limit : Int)
    (hp : provider text = .error msg) :
    get_embedding provider text = .error ⟨500, "Embedding failed"⟩ ∧
    (text ≠ "" → add_document provider uuid4 text =
      ([.embedCall text], .error ⟨500, "Embedding failed"⟩)) ∧
    (text ≠ "" → search provider store text limit =
      ([.embedCall text], .error ⟨500, "Embedding failed"⟩)) ∧
    embed provider text =
      ([.embedCall text], .error ⟨500, "Embedding failed"⟩) := by
  refine ⟨?_, fun ht => ?_, fun ht => ?_, ?_⟩
  · simp [get_embedding, hp]
  · simp [add_document, get_embedding, hp, if_neg ht]
  · simp [search, get_embedding, hp, if_neg ht]
  · simp [embed, get_embedding, hp]

/-- Witness for C8 with a provider whose exception text holds internal
detail: none of it reaches the responses. -/
theorem embedding_failure_genericized_witness :
    get_embedding (fun _ => .error "rate limit hit for key sk-secret") "doc" =
      .error ⟨500, "Embedding failed"⟩ ∧
    ("doc" ≠ "" →
      add_document (fun _ => .error "rate limit hit for key sk-secret") "u" "doc" =
        ([.embedCall "doc"], .error ⟨500, "Embedding failed"⟩)) ∧
    ("doc" ≠ "" →
      search (fun _ => .error "rate limit hit for key sk-secret")
          (fun _ _ _ => []) "doc" 3 =
        ([.embedCall "doc"], .error ⟨500, "Embedding failed"⟩)) ∧
    embed (fun _ => .error "rate limit hit for key sk-secret") "doc" =
      ([.embedCall "doc"], .error ⟨500, "Embedding failed"⟩) :=
  embedding_failure_genericized _ _ "u" "doc" "rate limit hit for key sk-secret"
    3 rfl

/-- Counterexample to C9: the `embed` handler performs no validation, so
`GET /embed` with an explicit empty `text` parameter invokes the embedding
call with the empty string. -/
theorem embed_calls_provider_with_empty_text :
    Call.embedCall "" ∈ (embed (fun _ => Except.ok []) "").1 := by
  decide

/-- C9 (amended): `add_document` and `search` validate non-emptiness before
the embedding call, so they never invoke it with the empty string; only the
`embed` endpoint, whose `text` defaults to "Hello" but is passed through
unvalidated, can reach the embedding call with empty text. -/
theorem handlers_validate_before_embedding (provider : Provider)
    (store : StoreSearch) (uuid4 text : String) (limit : Int) :
    Call.embedCall "" ∉ (add_document provider uuid4 text).1 ∧
    Call.embedCall "" ∉ (search provider store text limit).1 := by
  by_cases ht : text = ""
  · subst ht
    constructor <;> simp [add_document, search]
  · constructor
    · unfold add_document
      rw [if_neg ht]
      cases h : get_embedding provider text <;>
        simp [List.mem_cons] <;> exact fun hc => ht hc.symm
    · unfold search
      rw [if_neg ht]
      cases h : get_embedding provider text <;>
        simp [List.mem_cons] <;> exact fun hc => ht hc.symm

/-- C10: the committed duplicate server registers only `GET /` and
`GET /health` — none of the add_document/search/embed routes — and it is not
the server the generator writes: its `GET /` body is
`{"system": "AI Core 2026", "status": "production"}` and its `GET /health`
body is `{"status": "healthy"}` with no "services" field, while the generated
server answers `{"system": "AI Core 2026 RAG", "status": "ready"}` and
`{"status": "healthy", "services": "ok"}`. -/
theorem duplicate_server_distinct :
    DuplicateServer.routes = [("GET", "/"), ("GET", "/health")] ∧
    ("POST", "/add_document") ∉ DuplicateServer.routes ∧
    ("GET", "/search") ∉ DuplicateServer.routes ∧
    ("GET", "/embed") ∉ DuplicateServer.routes ∧
    DuplicateServer.root =
      [("system", "AI Core 2026"), ("status", "production")] ∧
    DuplicateServer.health = [("status", "healthy")] ∧
    "services" ∉ DuplicateServer.health.map Prod.fst ∧
    root = [("system", "AI Core 2026 RAG"), ("status", "ready")] ∧
    health = [("status", "healthy"), ("services", "ok")] ∧
    DuplicateServer.root ≠ root ∧
    DuplicateServer.health ≠ health := by
  decide

/-- A concrete provider for witnesses: every text embeds to `[1]`. -/
def demoProvider : Provider := fun _ => .ok [1]

/-- A concrete store for witnesses: two hits with decreasing scores. -/
def demoStore : StoreSearch :=
  fun _ _ _ => [⟨"a", 1, "alpha"⟩, ⟨"b", 0, "beta"⟩]

/-- A concrete store for witnesses: one hit whose text is shorter than 100
characters. -/
def demoStoreShort : StoreSearch := fun _ _ _ => [⟨"a", 1, "short"⟩]

/-- A concrete provider for witnesses honouring the 1536-dimension
contract. -/
def demoProvider1536 : Provider := fun _ => .ok (List.replicate 1536 0)

/-- C2: on a non-empty query, when the store honours its documented contract
(at most `limit` hits, ordered by non-increasing score), `search` succeeds
and its results are at most `limit` long, ordered by non-increasing score,
and each result is shaped from the corresponding hit as its id, its score
and the first 100 characters of its stored text. -/
theorem search_limit_ordered (provider : Provider) (store : StoreSearch)
    (query : String) (limit : Int) (v : List Rat)
    (hq : query ≠ "") (hp : provider query = .ok v)
    (hlen : ((store COLLECTION_NAME v limit).length : Int) ≤ limit)
    (hsorted : ((store COLLECTION_NAME v limit).map Hit.score).Sorted (· ≥ ·)) :
    ∃ resp : SearchResponse,
      (search provider store query limit).2 = .ok resp ∧
      ((resp.results.length : Int) ≤ limit) ∧
      (resp.results.map SearchResultItem.score).Sorted (· ≥ ·) ∧
      resp.results = (store COLLECTION_NAME v limit).map
        (fun hit => ⟨hit.id, hit.score, pySlice hit.payload_text 100⟩) := by
  refine ⟨⟨query, (store COLLECTION_NAME v limit).map
      (fun hit => ⟨hit.id, hit.score, pySlice hit.payload_text 100⟩)⟩,
    ?_, ?_, ?_, rfl⟩
  · simp [search, get_embedding, hp, if_neg hq]
  · simpa using hlen
  · simpa [List.map_map, Function.comp] using hsorted

/-- Witness for C2 at a concrete query, provider and store. -/
theorem search_limit_ordered_witness :
    ∃ resp : SearchResponse,
      (search demoProvider demoStore "q" 3).2 = .ok resp ∧
      ((resp.results.length : Int) ≤ 3) ∧
      (resp.results.map SearchResultItem.score).Sorted (· ≥ ·) ∧
      resp.results = (demoStore COLLECTION_NAME [1] 3).map
        (fun hit => ⟨hit.id, hit.score, pySlice hit.payload_text 100⟩) :=
  search_limit_ordered demoProvider demoStore "q" 3 [1] (by decide) rfl
    (by decide) (by decide)

/-- C3: every result `search` returns comes from a hit of the store, and its
`text` field is the first 100 characters of that hit's stored text — in
particular, when the stored text is shorter than 100 characters the result
carries the whole text unmodified. -/
theorem search_snippet_first100 (provider : Provider) (store : StoreSearch)
    (query : String) (limit : Int) (v : List Rat) (resp : SearchResponse)
    (hq : query ≠ "") (hp : provider query = .ok v)
    (hresp : (search provider store query limit).2 = .ok resp)
    (r : SearchResultItem) (hr : r ∈ resp.results) :
    ∃ hit ∈ store COLLECTION_NAME v limit,
      r.id = hit.id ∧ r.score = hit.score ∧
      r.text = pySlice hit.payload_text 100 ∧
      (hit.payload_text.length < 100 → r.text = hit.payload_text) := by
  have hok : (search provider store query limit).2 =
      .ok ⟨query, (store COLLECTION_NAME v limit).map
        (fun hit => ⟨hit.id, hit.score, pySlice hit.payload_text 100⟩)⟩ := by
    simp [search, get_embedding, hp, if_neg hq]
  rw [hok] at hresp
  obtain rfl : resp = ⟨query, (store COLLECTION_NAME v limit).map
      (fun hit => ⟨hit.id, hit.score, pySlice hit.payload_text 100⟩)⟩ :=
    (Except.ok.inj hresp).symm
  obtain ⟨hit, hhit, hfr⟩ := List.mem_map.mp hr
  subst hfr
  exact ⟨hit, hhit, rfl, rfl, rfl,
    fun h => pySlice_of_length_le _ _ (le_of_lt h)⟩

/-- Witness for C3: a stored text of length 5 comes back whole. -/
theorem search_snippet_first100_witness :
    ∃ hit ∈ demoStoreShort COLLECTION_NAME [1] 3,
      (⟨"a", 1, pySlice "short" 100⟩ : SearchResultItem).id = hit.id ∧
      (⟨"a", 1, pySlice "short" 100⟩ : SearchResultItem).score = hit.score ∧
      (⟨"a", 1, pySlice "short" 100⟩ : SearchResultItem).text =
        pySlice hit.payload_text 100 ∧
      (hit.payload_text.length < 100 →
        (⟨"a", 1, pySlice "short" 100⟩ : SearchResultItem).text =
          hit.payload_text) :=
  search_snippet_first100 demoProvider demoStoreShort "q" 3 [1]
    ⟨"q", [⟨"a", 1, pySlice "short" 100⟩]⟩ (by decide) rfl rfl
    ⟨"a", 1, pySlice "short" 100⟩ (by simp)

/-- C4: whenever the provider honours its documented contract of producing
vectors of the configured dimension 1536, the `embed` endpoint succeeds and
its `dimensions` field is 1536 — and 1536 is exactly the size `startup_event`
configures the collection with. -/
theorem embed_dimensions (provider : Provider) (text : String) (v : List Rat)
    (hdim : ∀ t w, provider t = .ok w → w.length = 1536)
    (hp : provider text = .ok v) :
    (∃ resp : EmbedResponse, (embed provider text).2 = .ok resp ∧
      resp.dimensions = 1536) ∧
    (startup_event ⟨[]⟩).1.collections.map (fun c => c.params.size) =
      [1536] := by
  refine ⟨⟨⟨text, v.length, v.take 3⟩, ?_, hdim text v hp⟩, by decide⟩
  simp [embed, get_embedding, hp]

/-- Witness for C4 at the default text and a 1536-dimension provider. -/
theorem embed_dimensions_witness :
    (∃ resp : EmbedResponse, (embed demoProvider1536 "Hello").2 = .ok resp ∧
      resp.dimensions = 1536) ∧
    (startup_event ⟨[]⟩).1.collections.map (fun c => c.params.size) =
      [1536] :=
  embed_dimensions demoProvider1536 "Hello" (List.replicate 1536 0)
    (fun t w h => by
      have hw : List.replicate 1536 (0 : Rat) = w := Except.ok.inj h
      rw [← hw, List.length_replicate])
    rfl
